import Mathlib

/-!
Verification of `mattn/nostr-restore` (`src/main.go`, `src/static/script.js`).

The Go program is a lookup-and-display HTTP service: it decodes an `npub`
identifier to a hex public key (`npubToHex`), queries archived events from a
PostgreSQL table (`queryEventsByPubkey`), fetches a user profile from a fixed
list of relays (`fetchProfileFromRelays`), and renders an HTML page
(`npubHandler`).  This file is a shallow embedding of those functions:
external effects (the nip19 decoder of the `go-nostr` library, the SQL driver,
the relay network, JSON unmarshalling) are explicit parameters or explicit
outcome data, and the handler is a pure function from those inputs to an HTTP
response together with the trace of I/O actions it performs.
-/

/-- A row of the `event_backup` table, as scanned by `queryEventsByPubkey`
in `src/main.go` (struct `Event`): columns `id`, `pubkey`, `created_at`
(int64), `event_kind` (int), `event_data` (text). -/
structure Event where
  ID : String
  Pubkey : String
  CreatedAt : Int
  Kind : Int
  EventData : String
deriving DecidableEq, Repr

/-- Profile record parsed from a kind-0 event (`UserProfile` in
`src/main.go`): fields `name`, `about`, `picture`, `nip05`, each defaulting
to the empty string. -/
structure UserProfile where
  name : String
  about : String
  picture : String
  nip05 : String
deriving DecidableEq, Repr

/-- The row order requested by the SQL
`ORDER BY event_kind ASC, created_at DESC` in `queryEventsByPubkey`
(`src/main.go` line 340): ascending kind, and descending creation time
within equal kinds. -/
def eventLE (a b : Event) : Prop :=
  a.Kind < b.Kind ∨ (a.Kind = b.Kind ∧ b.CreatedAt ≤ a.CreatedAt)

instance : DecidableRel eventLE := fun a b => by
  unfold eventLE; exact inferInstance

instance : IsTotal Event eventLE := by
  constructor; intro a b; unfold eventLE; omega

instance : IsTrans Event eventLE := by
  constructor; intro a b c; unfold eventLE; omega

/-- Result-set semantics of the query in `queryEventsByPubkey`
(`src/main.go` lines 338-358):
`SELECT ... FROM event_backup WHERE pubkey = $1
 ORDER BY event_kind ASC, created_at DESC`.
The table is modelled as a list of rows; `WHERE` is a filter and `ORDER BY`
is a sort by `eventLE` (any SQL engine returns some sorted permutation of the
filtered rows; insertion sort is one). -/
def queryEventsByPubkey (table : List Event) (pubkey : String) : List Event :=
  List.insertionSort eventLE (table.filter (fun e => e.Pubkey == pubkey))

/-- C1: for every table and requested key, the archive query returns only
events whose author column equals that key, and the returned sequence is
pairwise ordered by (kind ascending, then created-at descending within equal
kinds). -/
theorem queryEventsByPubkey_author_and_order (table : List Event) (pk : String) :
    (queryEventsByPubkey table pk).all (fun e => e.Pubkey == pk) = true
    ∧ (queryEventsByPubkey table pk).Pairwise
        (fun a b => a.Kind < b.Kind ∨ (a.Kind = b.Kind ∧ b.CreatedAt ≤ a.CreatedAt)) := by
  constructor
  · rw [List.all_eq_true]
    intro e he
    have hmem : e ∈ table.filter (fun e => e.Pubkey == pk) :=
      (List.perm_insertionSort eventLE _).subset he
    exact (List.mem_filter.mp hmem).2
  · exact List.sorted_insertionSort eventLE _

/-! ## Identifier decoding (`npubToHex`, `src/main.go` lines 313-335) -/

/-- The dynamically typed value returned by `nip19.Decode` in the `go-nostr`
library (external to this repository): for an `npub` it is a hex string;
other bech32 payloads are other Go types. -/
inductive Nip19Value where
  | str (s : String)
  | other
deriving DecidableEq, Repr

/-- The external `nip19.Decode` function of the `go-nostr` library, supplied
as an oracle: on success it yields the human-readable prefix and the decoded
value, on failure an error message. -/
def Nip19Decoder : Type := String → Except String (String × Nip19Value)

/-- Go `strings.HasPrefix(s, pre)`, on the character lists of the strings. -/
def goHasPrefix (s pre : String) : Bool := pre.data.isPrefixOf s.data

/-- Model of `npubToHex` (`src/main.go` lines 313-335), with the library decoder as a
parameter.  It rejects any input not starting with `"npub1"` before calling
the decoder, then checks the decoded prefix and that the value is a string. -/
def npubToHex (decode : Nip19Decoder) (npub : String) : Except String String :=
  if goHasPrefix npub "npub1" then
    match decode npub with
    | .error e => .error ("invalid npub: " ++ e)
    | .ok (pre, v) =>
      if pre = "npub" then
        match v with
        | .str s => .ok s
        | .other => .error "decoded npub value is not a string"
      else .error ("not an npub: prefix is " ++ pre)
  else .error "invalid npub format: does not start with npub1"

/-- Go `strings.TrimPrefix(path, "/npub/")` followed by the fallback to the `q`
query parameter (`src/main.go` lines 190-195): the path remainder is the
identifier unless it is empty, in which case `q` is used. -/
def pathAfterNpub (path : String) : String :=
  if goHasPrefix path "/npub/" then ⟨path.data.drop "/npub/".data.length⟩ else path

/-- The identifier the handler works with, resolved from the URL path and the
`q` query parameter (`src/main.go` lines 190-195). -/
def identifierOf (path q : String) : String :=
  let npub := pathAfterNpub path
  if npub = "" then q else npub

/-! ## Relay world and profile fetch (`fetchProfileFromRelays`,
`src/main.go` lines 47-99) -/

/-- An event received over a relay subscription (`nostr.Event` of the
`go-nostr` library), restricted to the fields the source reads: `Kind` and
`Content`. -/
structure NostrEvent where
  kind : Int
  content : String
deriving DecidableEq, Repr

/-- What a given relay endpoint does when contacted, covering the three
outcomes the source distinguishes: `nostr.RelayConnect` fails,
`relay.Subscribe` fails, or the subscription delivers a (possibly empty)
stream of events and is then exhausted. -/
inductive RelayOutcome where
  | connectFail (msg : String)
  | subscribeFail (msg : String)
  | events (evs : List NostrEvent)
deriving DecidableEq, Repr

/-- Go `json.Unmarshal` of an event's `Content` into `UserProfile`, supplied as
an oracle for the external JSON decoder. -/
def ProfileParser : Type := String → Except String UserProfile

/-- The nostr subscription filter built in `fetchProfileFromRelays`
(`src/main.go` lines 50-54): fields `Authors`, `Kinds`, `Limit`. -/
structure NostrFilter where
  authors : List String
  kinds : List Int
  limit : Nat
deriving DecidableEq, Repr

/-- The filter value of `src/main.go` lines 50-54: the given author, kind 0
(profile metadata), at most one result (the relay returns the most recent). -/
def profileFilter (pubkey : String) : NostrFilter :=
  { authors := [pubkey], kinds := [0], limit := 1 }

/-- The inner `for ev := range evs.Events` loop of `fetchProfileFromRelays`
(`src/main.go` lines 80-92): skip events whose kind is not 0; on a kind-0
event whose content fails to unmarshal, log and continue with the next event
of the same subscription; on the first kind-0 event that parses, return its
profile. -/
def firstProfile (parse : ProfileParser) : List NostrEvent → Option UserProfile
  | [] => none
  | ev :: rest =>
    if ev.kind = 0 then
      match parse ev.content with
      | .ok p => some p
      | .error _ => firstProfile parse rest
    else firstProfile parse rest

/-- The fixed relay list of `src/main.go` lines 57-61. -/
def relays : List String :=
  ["wss://relay.damus.io", "wss://yabu.me", "wss://nostr.compile-error.net"]

/-- The outer `for _, relayURL := range relays` loop of
`fetchProfileFromRelays` (`src/main.go` lines 64-98), over an explicit relay
world.  Returns the profile (the empty profile when no endpoint yields one —
the Go function returns `&UserProfile{}, nil`; its error result is `nil` on
every return path) together with the list of endpoints contacted, in order. -/
def fetchLoop (parse : ProfileParser) (world : String → RelayOutcome) :
    List String → UserProfile × List String
  | [] => (⟨"", "", "", ""⟩, [])
  | url :: rest =>
    match world url with
    | .connectFail _ =>
      let r := fetchLoop parse world rest
      (r.1, url :: r.2)
    | .subscribeFail _ =>
      let r := fetchLoop parse world rest
      (r.1, url :: r.2)
    | .events evs =>
      match firstProfile parse evs with
      | some p => (p, [url])
      | none =>
        let r := fetchLoop parse world rest
        (r.1, url :: r.2)

/-- Model of `fetchProfileFromRelays` (`src/main.go` lines 48-99): the fetch loop over
the fixed relay list. -/
def fetchProfileFromRelays (parse : ProfileParser) (world : String → RelayOutcome) :
    UserProfile × List String :=
  fetchLoop parse world relays

/-- Whether one endpoint outcome yields a profile: a connection or
subscription failure yields none; a delivered event stream yields the first
kind-0 event whose content parses, if any. -/
def relayYields (parse : ProfileParser) : RelayOutcome → Option UserProfile
  | .connectFail _ => none
  | .subscribeFail _ => none
  | .events evs => firstProfile parse evs

/-! ## Storage layer (`queryEventsByPubkey` as seen through `database/sql`,
`src/main.go` lines 338-358) -/

/-- The driver-level outcome of running the archive query, following the
`database/sql` contract used by the source: `db.Query` itself may fail
(`queryErr`); each row delivered by `rows.Next` is then scanned, and
`rows.Scan` may fail per row (`rowResults`); finally, row iteration may be
terminated early by an error (e.g. a dropped connection), in which case
`rows.Next` simply returns `false` and the error is reported only through
`rows.Err()` (`iterErr`) — which `src/main.go` never calls. -/
structure DBOutcome where
  queryErr : Option String
  rowResults : List (Except String Event)
  iterErr : Option String
deriving Repr

/-- The `for rows.Next()` scan loop of `queryEventsByPubkey`
(`src/main.go` lines 347-355): the first `rows.Scan` error aborts with that
error; otherwise the scanned events are collected in order. -/
def scanRows : List (Except String Event) → Except String (List Event)
  | [] => .ok []
  | .error e :: _ => .error e
  | .ok ev :: rest =>
    match scanRows rest with
    | .error e => .error e
    | .ok evs => .ok (ev :: evs)

/-- Model of `queryEventsByPubkey` at the driver level (`src/main.go` lines 338-358):
surface a `db.Query` error, else scan the delivered rows.  Note that
`iterErr` is ignored, exactly as the source ignores `rows.Err()`. -/
def runQuery (db : DBOutcome) : Except String (List Event) :=
  match db.queryErr with
  | some e => .error e
  | none => scanRows db.rowResults

/-! ## HTML escaping and rendering (`npubHandler` template,
`src/main.go` lines 219-308)

The handler renders its page with Go's `html/template`, which contextually
auto-escapes every `.Field` insertion.  `escChar`/`htmlEscape` model the
escaper applied in HTML text and quoted-attribute contexts
(`htmlReplacementTable` of `html/template`: `"` `'` `&` `<` `>` are replaced
by character references, NUL by U+FFFD).  `urlFilter` models the URL
filtering applied to `{{.Profile.Picture}}` inside `src="..."` (unsafe
schemes become `#ZgotmplZ`); the subsequent URL normalisation and attribute
escaping are modelled by `htmlEscape`, which normalisation only tightens. -/

/-- Escaping of one character, after `html/template`'s replacement table. -/
def escChar (c : Char) : List Char :=
  if c = '"' then "&#34;".data
  else if c.toNat = 39 then "&#39;".data
  else if c = '&' then "&amp;".data
  else if c = '<' then "&lt;".data
  else if c = '>' then "&gt;".data
  else if c.toNat = 0 then [Char.ofNat 0xFFFD]
  else [c]

/-- HTML escaping of a string: each character through `escChar`. -/
def htmlEscape (s : String) : String :=
  ⟨s.data.foldr (fun c acc => escChar c ++ acc) []⟩

/-- Scheme allow-list of `html/template`'s URL filter. -/
def schemeOk (scheme : String) : Bool :=
  scheme.toLower = "http" || scheme.toLower = "https" || scheme.toLower = "mailto"

/-- Model of the URL filter of `html/template`: a URL whose scheme (the part before a `:`
that occurs before any `/`, `?` or `#`) is not http/https/mailto is replaced
by the inert `#ZgotmplZ`. -/
def urlFilter (s : String) : String :=
  let pre := s.data.takeWhile (fun c => c != '/' && c != '?' && c != '#')
  if pre.contains ':' then
    if schemeOk ⟨pre.takeWhile (fun c => c != ':')⟩ then s else "#ZgotmplZ"
  else s

/-- Escaping applied to the profile picture URL in `src="{{.Profile.Picture}}"`. -/
def pictureEsc (s : String) : String := htmlEscape (urlFilter s)

/-- Two-digit zero padding for date components. -/
def pad2 (n : Int) : String := (if n < 10 then "0" else "") ++ toString n

/-- Model of `Event.GetFormattedDate` (`src/main.go` lines 43-45):
`time.Unix(e.CreatedAt, 0).Format("2006-01-02 15:04:05")`, i.e. the
timestamp as a calendar date and time.  The Go code formats in the server's
local time zone; the model fixes UTC (the civil-from-days algorithm of the
proleptic Gregorian calendar).  No claim depends on the formatted text. -/
def getFormattedDate (t : Int) : String :=
  let days := t.fdiv 86400
  let secs := t - days * 86400
  let hh := secs / 3600
  let mm := (secs % 3600) / 60
  let ss := secs % 60
  let z := days + 719468
  let era := z.fdiv 146097
  let doe := z - era * 146097
  let yoe := (doe - doe / 1460 + doe / 36524 - doe / 146096) / 365
  let doy := doe - (365 * yoe + yoe / 4 - yoe / 100)
  let mp := (5 * doy + 2) / 153
  let d := doy - (153 * mp + 2) / 5 + 1
  let m := mp + (if mp < 10 then 3 else (-9))
  let y := yoe + era * 400 + (if m ≤ 2 then 1 else 0)
  toString y ++ "-" ++ pad2 m ++ "-" ++ pad2 d ++ " " ++
    pad2 hh ++ ":" ++ pad2 mm ++ ":" ++ pad2 ss

/-- The restore button emitted by
`{{if eq .Kind 3}}<button ...>Restore</button>{{end}}`
(`src/main.go` line 265). -/
def restoreBtn : String :=
  "<button class=\"restore-btn\" onclick=\"showRestoreConfirmation(this)\">Restore</button>"

/-- The copy button emitted for every event (`src/main.go` line 266). -/
def copyBtn : String :=
  "<button class=\"copy-btn\" onclick=\"copyEventData(this)\">Copy</button>"

/-- The `event-actions` block of the template (`src/main.go` lines 264-267):
the restore button exactly when the kind equals 3, then the copy button. -/
def eventActions (k : Int) : String :=
  (if k = 3 then restoreBtn else "") ++ copyBtn

/-- One event's markup (`src/main.go` lines 259-273): formatted timestamp,
action buttons, the serialized payload both as the `data-content` attribute
value and inside the `<pre>` block (both HTML-escaped by `html/template`),
and the event identifier. -/
def renderEvent (e : Event) : String :=
  "<div class=\"event\"><div class=\"event-header\"><div class=\"event-header-left\"><span class=\"event-timestamp\">"
    ++ getFormattedDate e.CreatedAt
    ++ "</span></div>"
    ++ ("<div class=\"event-actions\">" ++ eventActions e.Kind ++ "</div>")
    ++ "</div><detail><div class=\"event-content\" "
    ++ ("data-content=\"" ++ htmlEscape e.EventData ++ "\"")
    ++ ("><pre style=\"white-space: pre-wrap; word-break: break-all;\">"
        ++ htmlEscape e.EventData ++ "</pre>")
    ++ "</div></detail>"
    ++ ("<div class=\"event-id\">" ++ htmlEscape e.ID ++ "</div>")
    ++ "</div>"

/-- Header opening a new kind group (`src/main.go` lines 255-256). -/
def kindHeader (k : Int) : String :=
  "<div class=\"kind-group\"><h2 class=\"kind-header\">Kind " ++ toString k ++ "</h2>"

/-- The `{{range .Events}}` body with the `$currentKind` grouping state
(`src/main.go` lines 251-273): whenever the kind differs from the previous
one, close the previous group (unless the state is still the initial `-1`)
and open a new one. -/
def eventsLoop : Int → List Event → String
  | _, [] => ""
  | ck, e :: rest =>
    (if e.Kind ≠ ck then (if ck ≠ -1 then "</div>" else "") ++ kindHeader e.Kind else "")
      ++ renderEvent e ++ eventsLoop e.Kind rest

/-- The range/else of the template (`src/main.go` lines 252-277): the event
loop followed by the final group-closing `</div>` when the list is nonempty,
or the no-events paragraph when it is empty. -/
def eventsSection (events : List Event) : String :=
  match events with
  | [] => "<p>No events found for this pubkey.</p>"
  | evs => eventsLoop (-1) evs ++ "</div>"

/-- The `events-container` div (`src/main.go` lines 250-278). -/
def eventsContainer (events : List Event) : String :=
  "<div class=\"events-container\">" ++ eventsSection events ++ "</div>"

/-- Document head and back link of the results template
(`src/main.go` lines 220-234); the profile name appears HTML-escaped in the
page title. -/
def docHead (name : String) : String :=
  "<!DOCTYPE html><html lang=\"en\"><head><meta charset=\"UTF-8\"><meta name=\"viewport\" content=\"width=device-width, initial-scale=1.0\"><title>Events for "
    ++ htmlEscape name
    ++ "</title><link rel=\"stylesheet\" href=\"/static/style.css\"><script src=\"https://cdn.jsdelivr.net/npm/sweetalert2@11\"></script><script src=\"/static/script.js\"></script></head><body><div class=\"container\"><div class=\"back-link\"><a href=\"/\">← Back to Home</a></div>"

/-- The optional profile picture (`src/main.go` lines 237-239). -/
def picturePart (pic : String) : String :=
  if pic ≠ "" then
    "<img src=\"" ++ pictureEsc pic
      ++ "\" alt=\"Profile Picture\" class=\"profile-pic\" style=\"width: 60px; height: 60px; border-radius: 50%; object-fit: cover; margin-right: 15px;\">"
  else ""

/-- The display name, or the fallback `Nostr User` (`src/main.go` line 241). -/
def namePart (name : String) : String :=
  "<div><h1>" ++ (if name ≠ "" then htmlEscape name else "Nostr User") ++ "</h1>"

/-- The npub and hex key lines (`src/main.go` lines 242-243). -/
def keyPart (npub hex : String) : String :=
  "<p>" ++ ("<strong>npub:</strong> " ++ htmlEscape npub ++ "</p>")
    ++ ("<p><strong>Hex Pubkey:</strong> " ++ htmlEscape hex ++ "</p>")

/-- The optional NIP-05 verification line (`src/main.go` line 244). -/
def nip05Part (nip05 : String) : String :=
  if nip05 ≠ "" then
    "<p><strong>Verification:</strong> " ++ htmlEscape nip05 ++ "</p>"
  else ""

/-- The optional about line (`src/main.go` line 245). -/
def aboutPart (about : String) : String :=
  if about ≠ "" then "<p><strong>About:</strong> " ++ htmlEscape about ++ "</p>" else ""

/-- The event count line and the closing tags of the profile header
(`src/main.go` lines 246-248). -/
def countChunk (n : Nat) : String :=
  "<p><strong>Total Events Found:</strong> " ++ toString n ++ "</p></div></div>"

/-- The profile header div (`src/main.go` lines 236-248). -/
def profileHeader (npub hex : String) (p : UserProfile) (n : Nat) : String :=
  "<div class=\"profile-header\" style=\"display: flex; align-items: center; margin-bottom: 30px; padding-bottom: 20px; border-bottom: 1px solid #eee;\">"
    ++ picturePart p.picture ++ namePart p.name ++ keyPart npub hex
    ++ nip05Part p.nip05 ++ aboutPart p.about ++ countChunk n

/-- Footer and closing tags (`src/main.go` lines 279-284). -/
def pageFooter : String :=
  "<footer><p>Nostr Event Restore Service &copy; 2025</p></footer></div></body></html>"

/-- The whole results page (`src/main.go` lines 219-285), with
`{{len .Events}}` as the event count. -/
def renderEventsPage (npub hex : String) (events : List Event) (p : UserProfile) : String :=
  docHead p.name ++ profileHeader npub hex p events.length
    ++ eventsContainer events ++ pageFooter

/-! ## The handler (`npubHandler`, `src/main.go` lines 188-310) -/

/-- An HTTP response: status code and body. -/
structure Response where
  status : Nat
  body : String
deriving DecidableEq, Repr

/-- The storage and network side effects the handler can perform, in order:
the parameterized archive query and a relay connection attempt. -/
inductive IOAction where
  | dbQuery (pubkey : String)
  | relayConnect (url : String)
deriving DecidableEq, Repr

/-- The external world a request runs against: the nip19 decoder, the
storage layer's response to the archive query, the JSON profile parser, and
each relay endpoint's behaviour. -/
structure World where
  decode : Nip19Decoder
  db : DBOutcome
  parse : ProfileParser
  relayWorld : String → RelayOutcome

/-- Model of `npubHandler` (`src/main.go` lines 188-310) as a pure function from the
request (URL path and `q` query parameter) and the world to the response and
the trace of I/O actions performed: resolve the identifier, decode it
(rejecting with 400 `Invalid npub format` before any I/O on failure), run
the archive query (surfacing a driver error as 500 `Database error: ...`),
fetch the profile from the relays, and render the page with status 200.
`http.Error` terminates its message with a newline. -/
def npubHandler (w : World) (path q : String) : Response × List IOAction :=
  let npub := identifierOf path q
  match npubToHex w.decode npub with
  | .error _ => (⟨400, "Invalid npub format\n"⟩, [])
  | .ok hexPubkey =>
    match runQuery w.db with
    | .error e => (⟨500, "Database error: " ++ e ++ "\n"⟩, [IOAction.dbQuery hexPubkey])
    | .ok events =>
      let pr := fetchProfileFromRelays w.parse w.relayWorld
      (⟨200, renderEventsPage npub hexPubkey events pr.1⟩,
        IOAction.dbQuery hexPubkey :: pr.2.map IOAction.relayConnect)

/-! ## Substring occurrence -/

/-- The string `needle` occurs as a contiguous substring of `hay`. -/
def strContains (needle hay : String) : Prop :=
  ∃ a b, hay = a ++ (needle ++ b)

theorem strContains_self (n : String) : strContains n n :=
  ⟨"", "", by simp⟩

theorem strContains_appendl {n s : String} (t : String) (h : strContains n s) :
    strContains n (t ++ s) := by
  obtain ⟨a, b, rfl⟩ := h
  exact ⟨t ++ a, b, (String.append_assoc t a (n ++ b)).symm⟩

theorem strContains_appendr {n s : String} (t : String) (h : strContains n s) :
    strContains n (s ++ t) := by
  obtain ⟨a, b, rfl⟩ := h
  refine ⟨a, b ++ t, ?_⟩
  rw [String.append_assoc, String.append_assoc]

/-- An occurrence at the string level is an occurrence at the character-list
level. -/
theorem strContains_chars {n s : String} (h : strContains n s) :
    n.data <:+: s.data := by
  obtain ⟨a, b, rfl⟩ := h
  exact ⟨a.data, b.data, by simp [String.data_append]⟩

/-! ## Shared concrete instances used by witnesses -/

/-- A concrete nip19 decoder: decodes the one identifier `npub1demo` to the
hex key `beef`, and rejects everything else. -/
def decodeDemo : Nip19Decoder := fun s =>
  if s = "npub1demo" then .ok ("npub", .str "beef") else .error "invalid checksum"

/-- A healthy storage outcome with zero rows for the key. -/
def dbEmpty : DBOutcome := ⟨none, [], none⟩

/-- A relay world in which every endpoint is unreachable. -/
def relaysDown : String → RelayOutcome := fun _ => .connectFail "dial tcp: connection refused"

/-- A profile parser that rejects every payload. -/
def parseNever : ProfileParser := fun _ => .error "unexpected end of JSON input"

/-- A demo world: working decoder, empty archive, unreachable relays. -/
def wDemo : World := ⟨decodeDemo, dbEmpty, parseNever, relaysDown⟩

/-- C2: an identifier that does not begin with `npub1` is rejected by
`npubToHex` with the prefix error, the handler answers 400
`Invalid npub format`, and the I/O trace is empty: the rejection precedes
any storage or network access. -/
theorem npub_prefix_rejected_before_io (w : World) (path q : String)
    (h : goHasPrefix (identifierOf path q) "npub1" = false) :
    npubToHex w.decode (identifierOf path q)
      = .error "invalid npub format: does not start with npub1"
    ∧ npubHandler w path q = (⟨400, "Invalid npub format\n"⟩, []) := by
  have h1 : npubToHex w.decode (identifierOf path q)
      = .error "invalid npub format: does not start with npub1" := by
    simp [npubToHex, h]
  exact ⟨h1, by simp [npubHandler, h1]⟩

/-- Witness for C2 at the concrete request `GET /npub/nsec1xyz`. -/
theorem npub_prefix_rejected_before_io_witness :
    npubToHex wDemo.decode (identifierOf "/npub/nsec1xyz" "")
      = .error "invalid npub format: does not start with npub1"
    ∧ npubHandler wDemo "/npub/nsec1xyz" "" = (⟨400, "Invalid npub format\n"⟩, []) :=
  npub_prefix_rejected_before_io wDemo "/npub/nsec1xyz" "" (by decide)

/-- C10: when the path remainder after `/npub/` is nonempty it is the
identifier and the `q` query parameter is ignored; when it is empty, `q` is
the identifier. -/
theorem path_identifier_overrides_query (path q q' : String) :
    (pathAfterNpub path ≠ "" →
      identifierOf path q = pathAfterNpub path
      ∧ identifierOf path q = identifierOf path q')
    ∧ (pathAfterNpub path = "" → identifierOf path q = q) := by
  refine ⟨fun h => ⟨?_, ?_⟩, fun h => ?_⟩ <;> simp [identifierOf, h]

/-- Witness for C10 at a concrete nonempty path remainder and at the bare
`/npub/` path. -/
theorem path_identifier_overrides_query_witness :
    (identifierOf "/npub/npub1abc" "zzz" = pathAfterNpub "/npub/npub1abc"
      ∧ identifierOf "/npub/npub1abc" "zzz" = identifierOf "/npub/npub1abc" "yyy")
    ∧ identifierOf "/npub/" "zzz" = "zzz" :=
  ⟨(path_identifier_overrides_query "/npub/npub1abc" "zzz" "yyy").1 (by decide),
   (path_identifier_overrides_query "/npub/" "zzz" "yyy").2 (by decide)⟩

/-! ## Profile fetch lemmas -/

/-- One step of the relay loop when the endpoint yields no profile: the next
endpoint is tried, the contacted trace grows by this endpoint. -/
theorem fetchLoop_cons_none {parse : ProfileParser} {world : String → RelayOutcome}
    {u : String} (rest : List String)
    (h : relayYields parse (world u) = none) :
    fetchLoop parse world (u :: rest)
      = ((fetchLoop parse world rest).1, u :: (fetchLoop parse world rest).2) := by
  cases hw : world u with
  | connectFail m => simp only [fetchLoop, hw]
  | subscribeFail m => simp only [fetchLoop, hw]
  | events evs =>
    have hfp : firstProfile parse evs = none := by
      simpa [relayYields, hw] using h
    simp only [fetchLoop, hw, hfp]

/-- One step of the relay loop when the endpoint yields a profile: that
profile is returned at once and no further endpoint appears in the trace. -/
theorem fetchLoop_cons_some {parse : ProfileParser} {world : String → RelayOutcome}
    {u : String} {p : UserProfile} (rest : List String)
    (h : relayYields parse (world u) = some p) :
    fetchLoop parse world (u :: rest) = (p, [u]) := by
  cases hw : world u with
  | connectFail m => simp [relayYields, hw] at h
  | subscribeFail m => simp [relayYields, hw] at h
  | events evs =>
    have hfp : firstProfile parse evs = some p := by
      simpa [relayYields, hw] using h
    simp only [fetchLoop, hw, hfp]

/-- When no endpoint of the list yields a profile, the loop returns the
empty profile and contacts every endpoint in order. -/
theorem fetchLoop_all_none {parse : ProfileParser} {world : String → RelayOutcome}
    (l : List String) (h : ∀ u ∈ l, relayYields parse (world u) = none) :
    fetchLoop parse world l = (⟨"", "", "", ""⟩, l) := by
  induction l with
  | nil => rfl
  | cons u rest ih =>
    rw [fetchLoop_cons_none rest (h u (List.mem_cons_self u rest)),
      ih (fun v hv => h v (List.mem_cons_of_mem u hv))]

/-- C3: when every relay endpoint fails to yield a profile (unreachable,
subscription failure, or no kind-0 event with parsable content), the profile
fetch returns the empty profile — the Go function returns `&UserProfile{},
nil`, never an error — and, provided decoding and the archive query
succeeded, the handler still renders the results page with status 200. -/
theorem all_relays_failing_profile_empty (w : World) (path q hex : String)
    (events : List Event)
    (hrelays : ∀ u ∈ relays, relayYields w.parse (w.relayWorld u) = none)
    (hdec : npubToHex w.decode (identifierOf path q) = .ok hex)
    (hdb : runQuery w.db = .ok events) :
    fetchProfileFromRelays w.parse w.relayWorld = (⟨"", "", "", ""⟩, relays)
    ∧ (npubHandler w path q).1.status = 200 := by
  have hf : fetchProfileFromRelays w.parse w.relayWorld = (⟨"", "", "", ""⟩, relays) :=
    fetchLoop_all_none relays hrelays
  refine ⟨hf, ?_⟩
  simp [npubHandler, hdec, hdb]

/-- Witness for C3: in `wDemo` every relay connection fails, the demo
identifier decodes, the archive has no rows, and the page renders. -/
theorem all_relays_failing_profile_empty_witness :
    fetchProfileFromRelays wDemo.parse wDemo.relayWorld = (⟨"", "", "", ""⟩, relays)
    ∧ (npubHandler wDemo "/npub/npub1demo" "").1.status = 200 :=
  all_relays_failing_profile_empty wDemo "/npub/npub1demo" "" "beef" []
    (fun _ _ => rfl) rfl rfl

/-- C6: if the endpoints before `url` yield no profile and `url` delivers a
kind-0 event whose payload parses as a profile, the fetch loop returns that
profile immediately and contacts no endpoint after `url`; and the
subscription filter asks for kind-0 events of the key, limited to one
result. -/
theorem first_relay_success_stops_fetch (parse : ProfileParser)
    (world : String → RelayOutcome) (rs₁ rs₂ : List String) (url pk : String)
    (p : UserProfile)
    (h1 : ∀ u ∈ rs₁, relayYields parse (world u) = none)
    (h2 : relayYields parse (world url) = some p) :
    fetchLoop parse world (rs₁ ++ url :: rs₂) = (p, rs₁ ++ [url])
    ∧ profileFilter pk = ⟨[pk], [0], 1⟩ := by
  refine ⟨?_, rfl⟩
  induction rs₁ with
  | nil => simpa using fetchLoop_cons_some rs₂ h2
  | cons u rest ih =>
    have hu : relayYields parse (world u) = none := h1 u (List.mem_cons_self u rest)
    have hrest := ih (fun v hv => h1 v (List.mem_cons_of_mem u hv))
    rw [List.cons_append, fetchLoop_cons_none (rest ++ url :: rs₂) hu, hrest]
    rfl

/-- A concrete world for the C6 witness: the first relay is down, the second
delivers a non-profile event and then a parsable kind-0 event. -/
def world6 : String → RelayOutcome := fun u =>
  if u = "wss://yabu.me" then .events [⟨1, "note"⟩, ⟨0, "good-profile"⟩]
  else .connectFail "dial fail"

/-- A concrete parser for the C6 witness. -/
def parse6 : ProfileParser := fun s =>
  if s = "good-profile" then .ok ⟨"Alice", "", "", ""⟩ else .error "invalid character"

/-- Witness for C6: the profile arrives from the second relay and the third
is never contacted. -/
theorem first_relay_success_stops_fetch_witness :
    fetchProfileFromRelays parse6 world6
      = (⟨"Alice", "", "", ""⟩, ["wss://relay.damus.io", "wss://yabu.me"])
    ∧ profileFilter "pk" = ⟨["pk"], [0], 1⟩ :=
  first_relay_success_stops_fetch parse6 world6 ["wss://relay.damus.io"]
    ["wss://nostr.compile-error.net"] "wss://yabu.me" "pk" ⟨"Alice", "", "", ""⟩
    (by decide) (by decide)

/-! ## C5: behaviour on unparsable profile content -/

/-- A relay world in which the first relay delivers an unparsable kind-0
event followed by a parsable one; the remaining relays are down. -/
def world5x : String → RelayOutcome := fun u =>
  if u = "wss://relay.damus.io" then .events [⟨0, "unparsable"⟩, ⟨0, "good-profile"⟩]
  else .connectFail "dial fail"

/-- A parser that accepts exactly the payload `good-profile`. -/
def parse5 : ProfileParser := fun s =>
  if s = "good-profile" then .ok ⟨"Alice", "", "", ""⟩ else .error "invalid character u"

/-- Counterexample to C5 as stated: the first endpoint returns unparsable
profile content (the payload `unparsable`), yet the very next endpoint
`wss://yabu.me` is never contacted — the fetch continues with the next event
of the same subscription and returns a profile from the same endpoint. -/
theorem unparsable_content_does_not_advance_endpoint :
    fetchProfileFromRelays parse5 world5x
      = (⟨"Alice", "", "", ""⟩, ["wss://relay.damus.io"])
    ∧ "wss://yabu.me" ∉ (fetchProfileFromRelays parse5 world5x).2 := by
  constructor
  · rfl
  · decide

/-- C5 (amended): a failed connection, a failed subscription, or an
exhausted subscription without parsable kind-0 content each log and continue
with the next endpoint; unparsable content of a kind-0 event logs and
continues with the next event of the same subscription. -/
theorem profile_fetch_fallback_behaviour (parse : ProfileParser)
    (world : String → RelayOutcome) (u1 u2 u3 m1 m2 m3 : String)
    (r1 r2 r3 : List String) (evs : List NostrEvent) (ev : NostrEvent)
    (tail : List NostrEvent)
    (h1 : world u1 = .connectFail m1)
    (h2 : world u2 = .subscribeFail m2)
    (h3 : world u3 = .events evs)
    (h4 : firstProfile parse evs = none)
    (h5 : ev.kind = 0)
    (h6 : parse ev.content = .error m3) :
    fetchLoop parse world (u1 :: r1)
      = ((fetchLoop parse world r1).1, u1 :: (fetchLoop parse world r1).2)
    ∧ fetchLoop parse world (u2 :: r2)
      = ((fetchLoop parse world r2).1, u2 :: (fetchLoop parse world r2).2)
    ∧ fetchLoop parse world (u3 :: r3)
      = ((fetchLoop parse world r3).1, u3 :: (fetchLoop parse world r3).2)
    ∧ firstProfile parse (ev :: tail) = firstProfile parse tail := by
  refine ⟨?_, ?_, ?_, ?_⟩
  · exact fetchLoop_cons_none r1 (by simp [relayYields, h1])
  · exact fetchLoop_cons_none r2 (by simp [relayYields, h2])
  · exact fetchLoop_cons_none r3 (by simp [relayYields, h3, h4])
  · simp only [firstProfile, h5, if_pos, h6]

/-- A world exhibiting all three per-endpoint failure modes for the C5
witness. -/
def world5w : String → RelayOutcome := fun u =>
  if u = "a" then .connectFail "down"
  else if u = "b" then .subscribeFail "sub refused"
  else .events [⟨0, "unparsable"⟩]

/-- Witness for the amended C5 at concrete endpoints and a concrete
unparsable kind-0 event. -/
theorem profile_fetch_fallback_behaviour_witness :
    fetchLoop parse5 world5w ("a" :: [])
      = ((fetchLoop parse5 world5w []).1, "a" :: (fetchLoop parse5 world5w []).2)
    ∧ fetchLoop parse5 world5w ("b" :: [])
      = ((fetchLoop parse5 world5w []).1, "b" :: (fetchLoop parse5 world5w []).2)
    ∧ fetchLoop parse5 world5w ("c" :: [])
      = ((fetchLoop parse5 world5w []).1, "c" :: (fetchLoop parse5 world5w []).2)
    ∧ firstProfile parse5 (⟨0, "unparsable"⟩ :: []) = firstProfile parse5 [] :=
  profile_fetch_fallback_behaviour parse5 world5w "a" "b" "c" "down" "sub refused"
    "invalid character u" [] [] [] [⟨0, "unparsable"⟩] ⟨0, "unparsable"⟩ []
    rfl rfl rfl (by decide) rfl rfl

/-! ## C4: storage failures and the missing `rows.Err()` check -/

/-- A row delivered before the iteration error. -/
def rowA : Event := ⟨"evt-a", "beef", 1700000000, 1, "payload-a"⟩

/-- A storage outcome in which `db.Query` succeeds, one row is delivered and
scanned, and then row iteration is aborted by a connection failure: per the
`database/sql` contract, `rows.Next` returns `false` and the error is
available only through `rows.Err()`. -/
def dbTruncated : DBOutcome := ⟨none, [.ok rowA], some "driver: bad connection"⟩

/-- The world of the C4 failing input: working decoder, truncated archive
iteration, unreachable relays. -/
def wTrunc : World := ⟨decodeDemo, dbTruncated, parseNever, relaysDown⟩

/-- C4 evidence: a storage-layer failure that aborts row iteration after one
of the rows.  Because `queryEventsByPubkey` never consults `rows.Err()`, the
query returns the truncated list as a success and the handler responds with
status 200 instead of surfacing a server error. -/
theorem iteration_error_silently_truncates :
    dbTruncated.iterErr = some "driver: bad connection"
    ∧ runQuery dbTruncated = .ok [rowA]
    ∧ (npubHandler wTrunc "/npub/npub1demo" "").1.status = 200 :=
  ⟨rfl, rfl, rfl⟩

/-! ## C7: zero archived rows -/

/-- The count line of a page with zero events contains
`Total Events Found:</strong> 0` (rendered text: `Total Events Found: 0`). -/
theorem contains_count_zero (npub hex : String) (p : UserProfile) :
    strContains "Total Events Found:</strong> 0" (renderEventsPage npub hex [] p) := by
  have base : strContains "Total Events Found:</strong> 0" (countChunk 0) :=
    ⟨"<p><strong>", "</p></div></div>", by decide⟩
  unfold renderEventsPage profileHeader
  exact strContains_appendr _ (strContains_appendr _
    (strContains_appendl _ (strContains_appendl _ base)))

/-- A page with zero events contains the no-events paragraph. -/
theorem contains_no_events (npub hex : String) (p : UserProfile) :
    strContains "<p>No events found for this pubkey.</p>" (renderEventsPage npub hex [] p) := by
  have base : strContains "<p>No events found for this pubkey.</p>" (eventsSection []) :=
    ⟨"", "", by decide⟩
  unfold renderEventsPage eventsContainer
  exact strContains_appendr _ (strContains_appendl _
    (strContains_appendr _ (strContains_appendl _ base)))

/-- C7: for a valid identifier whose key has zero archived rows, the query
returns the empty sequence, the handler answers 200, and the rendered page
shows a zero count and the no-events message. -/
theorem empty_archive_renders_zero (w : World) (path q hex : String)
    (hdec : npubToHex w.decode (identifierOf path q) = .ok hex)
    (hq : w.db.queryErr = none) (hrows : w.db.rowResults = []) :
    runQuery w.db = .ok []
    ∧ (npubHandler w path q).1.status = 200
    ∧ strContains "Total Events Found:</strong> 0" (npubHandler w path q).1.body
    ∧ strContains "<p>No events found for this pubkey.</p>" (npubHandler w path q).1.body := by
  have hdb : runQuery w.db = .ok [] := by
    simp [runQuery, hq, hrows, scanRows]
  have hbody : npubHandler w path q
      = (⟨200, renderEventsPage (identifierOf path q) hex []
            (fetchProfileFromRelays w.parse w.relayWorld).1⟩,
         IOAction.dbQuery hex
           :: (fetchProfileFromRelays w.parse w.relayWorld).2.map IOAction.relayConnect) := by
    simp [npubHandler, hdec, hdb]
  refine ⟨hdb, ?_, ?_, ?_⟩
  · rw [hbody]
  · rw [hbody]; exact contains_count_zero _ _ _
  · rw [hbody]; exact contains_no_events _ _ _

/-- Witness for C7 at the concrete demo world and request. -/
theorem empty_archive_renders_zero_witness :
    runQuery wDemo.db = .ok []
    ∧ (npubHandler wDemo "/npub/npub1demo" "").1.status = 200
    ∧ strContains "Total Events Found:</strong> 0"
        (npubHandler wDemo "/npub/npub1demo" "").1.body
    ∧ strContains "<p>No events found for this pubkey.</p>"
        (npubHandler wDemo "/npub/npub1demo" "").1.body :=
  empty_archive_renders_zero wDemo "/npub/npub1demo" "" "beef" rfl rfl rfl

/-! ## C8: escaping of user-influenced and stored text -/

/-- The escape of any single character contains no raw markup character. -/
theorem escChar_no_markup (c : Char) :
    ¬ '<' ∈ escChar c ∧ ¬ '>' ∈ escChar c ∧ ('"' : Char) ∉ escChar c := by
  unfold escChar
  split_ifs with h1 h2 h3 h4 h5 h6
  · exact ⟨by decide, by decide, by decide⟩
  · exact ⟨by decide, by decide, by decide⟩
  · exact ⟨by decide, by decide, by decide⟩
  · exact ⟨by decide, by decide, by decide⟩
  · exact ⟨by decide, by decide, by decide⟩
  · exact ⟨by decide, by decide, by decide⟩
  · exact ⟨fun hm => h4 (List.mem_singleton.mp hm).symm,
      fun hm => h5 (List.mem_singleton.mp hm).symm,
      fun hm => h1 (List.mem_singleton.mp hm).symm⟩

/-- Escaping a whole character list yields no raw markup character. -/
theorem foldr_escChar_no_markup (l : List Char) :
    ¬ '<' ∈ l.foldr (fun c acc => escChar c ++ acc) []
    ∧ ¬ '>' ∈ l.foldr (fun c acc => escChar c ++ acc) []
    ∧ ('"' : Char) ∉ l.foldr (fun c acc => escChar c ++ acc) [] := by
  induction l with
  | nil => exact ⟨by simp, by simp, by simp⟩
  | cons c cs ih =>
    have hc := escChar_no_markup c
    simp only [List.foldr_cons, List.mem_append]
    exact ⟨fun h => h.elim hc.1 ih.1, fun h => h.elim hc.2.1 ih.2.1,
      fun h => h.elim hc.2.2 ih.2.2⟩

/-- The HTML escaper emits no raw `<`, `>` or `"`. -/
theorem htmlEscape_no_markup (s : String) :
    ¬ '<' ∈ (htmlEscape s).data ∧ ¬ '>' ∈ (htmlEscape s).data
    ∧ ('"' : Char) ∉ (htmlEscape s).data :=
  foldr_escChar_no_markup s.data

/-- C8: the HTML escaper applied by the template emits no raw markup
character (so escaped text can neither open a tag nor close a quoted
attribute), and every user-influenced or stored value appears in the
rendered markup only through an escaper: the serialized payload in the
`data-content` attribute and in the preformatted block, the event
identifier, the npub and hex key, and each profile field. -/
theorem rendered_values_escaped :
    (∀ s : String, ¬ '<' ∈ (htmlEscape s).data ∧ ¬ '>' ∈ (htmlEscape s).data
      ∧ ('"' : Char) ∉ (htmlEscape s).data)
    ∧ (∀ s : String, pictureEsc s = htmlEscape (urlFilter s))
    ∧ (∀ e : Event,
        strContains ("data-content=\"" ++ htmlEscape e.EventData ++ "\"") (renderEvent e)
        ∧ strContains ("><pre style=\"white-space: pre-wrap; word-break: break-all;\">"
            ++ htmlEscape e.EventData ++ "</pre>") (renderEvent e)
        ∧ strContains ("<div class=\"event-id\">" ++ htmlEscape e.ID ++ "</div>")
            (renderEvent e))
    ∧ (∀ npub hex : String, ∀ evs : List Event, ∀ p : UserProfile,
        strContains ("<strong>npub:</strong> " ++ htmlEscape npub ++ "</p>")
          (renderEventsPage npub hex evs p)
        ∧ strContains ("<p><strong>Hex Pubkey:</strong> " ++ htmlEscape hex ++ "</p>")
          (renderEventsPage npub hex evs p))
    ∧ (∀ v : String,
        namePart v = "<div><h1>" ++ (if v ≠ "" then htmlEscape v else "Nostr User") ++ "</h1>")
    ∧ (∀ v : String,
        nip05Part v
          = if v ≠ "" then "<p><strong>Verification:</strong> " ++ htmlEscape v ++ "</p>" else "")
    ∧ (∀ v : String,
        aboutPart v = if v ≠ "" then "<p><strong>About:</strong> " ++ htmlEscape v ++ "</p>" else "")
    ∧ (∀ v : String,
        picturePart v
          = if v ≠ "" then
              "<img src=\"" ++ pictureEsc v
                ++ "\" alt=\"Profile Picture\" class=\"profile-pic\" style=\"width: 60px; height: 60px; border-radius: 50%; object-fit: cover; margin-right: 15px;\">"
            else "") := by
  refine ⟨htmlEscape_no_markup, fun _ => rfl, ?_, ?_,
    fun _ => rfl, fun _ => rfl, fun _ => rfl, fun _ => rfl⟩
  · intro e
    refine ⟨?_, ?_, ?_⟩
    · unfold renderEvent
      exact strContains_appendr _ (strContains_appendr _ (strContains_appendr _
        (strContains_appendr _ (strContains_appendl _ (strContains_self _)))))
    · unfold renderEvent
      exact strContains_appendr _ (strContains_appendr _ (strContains_appendr _
        (strContains_appendl _ (strContains_self _))))
    · unfold renderEvent
      exact strContains_appendr _ (strContains_appendl _ (strContains_self _))
  · intro npub hex evs p
    constructor
    · unfold renderEventsPage profileHeader keyPart
      exact strContains_appendr _ (strContains_appendr _ (strContains_appendl _
        (strContains_appendr _ (strContains_appendr _ (strContains_appendr _
          (strContains_appendl _ (strContains_appendr _ (strContains_appendl _
            (strContains_self _)))))))))
    · unfold renderEventsPage profileHeader keyPart
      exact strContains_appendr _ (strContains_appendr _ (strContains_appendl _
        (strContains_appendr _ (strContains_appendr _ (strContains_appendr _
          (strContains_appendl _ (strContains_appendl _ (strContains_self _))))))))

/-! ## C9: the restore and copy actions -/

/-- C9: the action block of an event's markup contains the restore button
exactly when the event's kind is 3, always contains the copy button, and
appears in the event's rendered markup. -/
theorem restore_action_iff_kind3 (e : Event) (k : Int) :
    (strContains restoreBtn (eventActions k) ↔ k = 3)
    ∧ strContains copyBtn (eventActions k)
    ∧ strContains ("<div class=\"event-actions\">" ++ eventActions e.Kind ++ "</div>")
        (renderEvent e) := by
  refine ⟨⟨?_, ?_⟩, ?_, ?_⟩
  · intro h
    by_contra hk
    have hact : eventActions k = copyBtn := by simp [eventActions, hk]
    rw [hact] at h
    exact absurd (strContains_chars h) (by decide)
  · intro hk
    subst hk
    have hact : eventActions 3 = restoreBtn ++ copyBtn := by simp [eventActions]
    rw [hact]
    exact strContains_appendr _ (strContains_self _)
  · unfold eventActions
    exact strContains_appendl _ (strContains_self _)
  · unfold renderEvent
    exact strContains_appendr _ (strContains_appendr _ (strContains_appendr _
      (strContains_appendr _ (strContains_appendr _ (strContains_appendr _
        (strContains_appendl _ (strContains_self _)))))))
